import Mathlib

/-!
Verification of the persistence layer of the e-book reader
(`src/src-tauri/src/lib.rs`), a Tauri/rusqlite application.

A shallow embedding of the SQLite database plus the managed `books/`
content directory. Each `#[tauri::command]` becomes a Lean function over
an explicit `AppState`. Mutating commands return `Except DbError α ×
AppState`, so the post-state is available on both the success and the
error path (the Rust commands return `Result<_, String>`; the embedding
classifies the error strings by their kind instead of their text).

Modelling notes, each traceable to the source:
* `last_percentage` is an `f64` in the source; the code only stores and
  copies it (no arithmetic), so it is modelled as an opaque `Int` value.
* `created_at` is a SQLite `datetime('now')` text; it is modelled as a
  `Nat` drawn from a logical `clock` in the state, bumped on each insert.
* Row ids come from `AUTOINCREMENT`; modelled as `next_*_id` counters
  that advance only when a row is actually inserted (an ignored
  `INSERT OR IGNORE` does not consume an id, as in SQLite).
* The connection is opened with `Connection::open` and no
  `PRAGMA foreign_keys = ON` is ever executed, so SQLite's default
  (foreign keys OFF) applies: the `ON DELETE CASCADE` clauses declared on
  `highlight_collections` in `init_db` never fire at runtime, and the
  foreign keys of `highlight_collections` are never checked on insert.
  The embedding therefore performs no cascade and no referential check,
  exactly as the running program does.
* Filesystem and lock failures (disk full, poisoned mutex) are not
  modelled: every claim under study is about the logic on the paths the
  code actually takes, and the error strings there are I/O messages
  surfaced verbatim.
-/

/-- Rows of the `highlights` table, and the `Highlight` struct of the source. -/
structure Highlight where
  id : Int
  book_title : String
  cfi : String
  text : String
  color : String
  notes : String
  created_at : Nat
deriving DecidableEq

/-- Rows of the `bookmarks` table, and the `Bookmark` struct of the source. -/
structure Bookmark where
  id : Int
  book_title : String
  cfi : String
  label : String
  created_at : Nat
deriving DecidableEq

/-- Rows of the `collections` table, and the `Collection` struct of the source. -/
structure Collection where
  id : Int
  name : String
  emoji : String
  created_at : Nat
deriving DecidableEq

/-- Rows of the `books` table, and the `BookMetadata` struct of the source. -/
structure BookMetadata where
  id : Int
  title : String
  filename : String
  last_cfi : String
  cover : Option String
  locations_data : Option String
  last_percentage : Int
  created_at : Nat
deriving DecidableEq

/-- Kinds of errors the commands surface (the source returns them as strings). -/
inductive DbError where
  /-- `QueryReturnedNoRows` from `query_row`, or a missing file on `fs::read`. -/
  | notFound
  /-- a SQLite `UNIQUE` constraint violation surfaced by a plain `INSERT`. -/
  | constraintViolation
deriving DecidableEq

deriving instance DecidableEq for Except

/-- The whole mutable state: the five tables of `highlights.db`, the id
counters, the logical clock, and the managed `books` content directory.
`books_dir = none` models the directory not existing on disk;
`books_dir = some files` models it existing with the given
filename-to-bytes entries. -/
structure AppState where
  books : List BookMetadata
  highlights : List Highlight
  bookmarks : List Bookmark
  collections : List Collection
  highlight_collections : List (Int × Int)
  books_dir : Option (List (String × List Nat))
  next_book_id : Int
  next_highlight_id : Int
  next_bookmark_id : Int
  next_collection_id : Int
  clock : Nat
deriving DecidableEq

/-- A fresh state: empty tables, no `books` directory yet (the source only
creates `books/` inside `add_book` / `wipe_all_data`). -/
def emptyState : AppState :=
  { books := [], highlights := [], bookmarks := [], collections := [],
    highlight_collections := [], books_dir := none,
    next_book_id := 1, next_highlight_id := 1, next_bookmark_id := 1,
    next_collection_id := 1, clock := 0 }

-- ---------------------------------------------------------------------------
-- Schema manager (init_db)
-- ---------------------------------------------------------------------------

/-- Outcome of a single SQL statement executed against the connection:
`none` is success, `some e` is the error SQLite reported. -/
inductive SqlError where
  /-- the "duplicate column name" error an `ALTER TABLE ADD COLUMN` gets
  when the column already exists. -/
  | duplicateColumn
  /-- any other SQLite error, carrying its message. -/
  | other (msg : String)
deriving DecidableEq

/-- Embedding of `init_db` (lib.rs lines 56 to 124) over the outcomes the
database reports for each statement group: `base` for the first
`execute_batch` (highlights, books, bookmarks tables), `migrations` for
the five `ALTER TABLE ADD COLUMN` statements in order, `collectionsDdl`
for the second `execute_batch` (collections tables). The result is
`some ()` when `init_db` returns normally and `none` when it panics via
`.expect` (fatal, the process aborts). Each migration is run as
`let _ = conn.execute(...)`: its outcome is discarded unconditionally. -/
def init_db (base : Option SqlError) (migrations : List (Option SqlError))
    (collectionsDdl : Option SqlError) : Option Unit :=
  match base with
  | some _ => none
  | none =>
    let _ := migrations.map (fun _ => ())
    match collectionsDdl with
    | some _ => none
    | none => some ()

/-- Modelled from the spec: the Schema Manager the spec describes, which
"tolerates duplicate column errors specifically" — a migration failing
with anything other than `duplicateColumn` is propagated (init fails)
rather than swallowed. Used only to contrast with `init_db`. -/
def init_db_spec (base : Option SqlError) (migrations : List (Option SqlError))
    (collectionsDdl : Option SqlError) : Option Unit :=
  match base with
  | some _ => none
  | none =>
    if migrations.any (fun r => match r with
        | some (SqlError.other _) => true
        | _ => false) then
      none
    else
      match collectionsDdl with
      | some _ => none
      | none => some ()

-- ---------------------------------------------------------------------------
-- Content store helpers
-- ---------------------------------------------------------------------------

/-- Embedding of `std::fs::create_dir_all(&books_dir)`: ensure the managed
directory exists, keeping its entries if it already does. -/
def ensureDir (st : AppState) : AppState :=
  { st with books_dir := some (st.books_dir.getD []) }

/-- Embedding of `std::fs::write(&file_path, data)`: replace or create the
entry for `fn_` in the managed directory (only called after `ensureDir`,
as in the source). -/
def writeFile (st : AppState) (fn_ : String) (data : List Nat) : AppState :=
  { st with
    books_dir :=
      some ((st.books_dir.getD []).filter (fun p => p.1 != fn_) ++ [(fn_, data)]) }

/-- Embedding of `std::fs::read`: the bytes stored under `fn_`, or `none`
when the directory or the file is absent. -/
def readFile (st : AppState) (fn_ : String) : Option (List Nat) :=
  ((st.books_dir.getD []).find? (fun p => p.1 == fn_)).map (fun p => p.2)

/-- Embedding of `if file_path.exists() { std::fs::remove_file(...) }`:
drop the entry for `fn_`; a no-op when the directory or file is absent. -/
def removeFile (st : AppState) (fn_ : String) : AppState :=
  match st.books_dir with
  | none => st
  | some fs => { st with books_dir := some (fs.filter (fun p => p.1 != fn_)) }

/-- Whether some file in the managed directory has no catalog row whose
`filename` matches it (the "file whose metadata is missing" state the
spec's ownership rule forbids). -/
def hasOrphanFile (st : AppState) : Bool :=
  (st.books_dir.getD []).any (fun p => !(st.books.any (fun b => b.filename == p.1)))

-- ---------------------------------------------------------------------------
-- Library catalog
-- ---------------------------------------------------------------------------

/-- Embedding of the `SELECT ... FROM books WHERE title = ?1` lookup. -/
def findBook (st : AppState) (title : String) : Option BookMetadata :=
  st.books.find? (fun b => b.title == title)

/-- Whether a catalog row with this title exists. -/
def bookTitlePresentB (st : AppState) (title : String) : Bool :=
  st.books.any (fun b => b.title == title)

/-- Embedding of `INSERT OR IGNORE INTO books (title, filename, cover)`:
skipped silently when a row with this title exists, otherwise a new row
with the defaults of the schema (`last_cfi` empty, `last_percentage` 0). -/
def insertBookOrIgnore (st : AppState) (title fn_ : String)
    (cover : Option String) : AppState :=
  if st.books.any (fun b => b.title == title) then st
  else
    { st with
      books := st.books ++
        [{ id := st.next_book_id, title := title, filename := fn_,
           last_cfi := "", cover := cover, locations_data := none,
           last_percentage := 0, created_at := st.clock }],
      next_book_id := st.next_book_id + 1,
      clock := st.clock + 1 }

/-- The state of `add_book` after `create_dir_all` and `fs::write`
(lib.rs lines 141 to 144) but before the `INSERT OR IGNORE`
(line 147): the content file is on disk, the catalog row is not yet. -/
def add_book_mid (st : AppState) (fn_ : String) (data : List Nat) : AppState :=
  writeFile (ensureDir st) fn_ data

/-- Embedding of the `add_book` command (lib.rs lines 130 to 173):
ensure the directory, write the file, `INSERT OR IGNORE` the row, then
`SELECT` the row by title and return it. -/
def add_book (st : AppState) (title fn_ : String) (cover : Option String)
    (data : List Nat) : Except DbError BookMetadata × AppState :=
  let st2 := add_book_mid st fn_ data
  let st3 := insertBookOrIgnore st2 title fn_ cover
  match findBook st3 title with
  | some b => (Except.ok b, st3)
  | none => (Except.error DbError.notFound, st3)

/-- The successive states `add_book` passes through: initial, after
`create_dir_all`, after `fs::write`, after the `INSERT OR IGNORE` (the
final `SELECT` mutates nothing). -/
def add_book_states (st : AppState) (title fn_ : String) (cover : Option String)
    (data : List Nat) : List AppState :=
  [st, ensureDir st, add_book_mid st fn_ data,
   insertBookOrIgnore (add_book_mid st fn_ data) title fn_ cover]

/-- Embedding of `update_book_progress` (lib.rs lines 204 to 218): an
unconditional `UPDATE books SET last_cfi = ?1, last_percentage = ?2
WHERE title = ?3`; zero rows affected is still `Ok(())`. -/
def update_book_progress (st : AppState) (title cfi : String) (percentage : Int) :
    Except DbError Unit × AppState :=
  (Except.ok (),
   { st with
     books := st.books.map (fun b =>
       if b.title == title then
         { b with last_cfi := cfi, last_percentage := percentage }
       else b) })

/-- Embedding of `get_book_content` (lib.rs lines 236 to 240):
`std::fs::read` of `books/<filename>`, `NotFound` when absent. -/
def get_book_content (st : AppState) (fn_ : String) : Except DbError (List Nat) :=
  match readFile st fn_ with
  | some d => Except.ok d
  | none => Except.error DbError.notFound

-- ---------------------------------------------------------------------------
-- Annotation store
-- ---------------------------------------------------------------------------

/-- Insert a highlight before a list sorted by `created_at` descending. -/
def insertDesc (h : Highlight) : List Highlight → List Highlight
  | [] => [h]
  | x :: xs =>
    if h.created_at ≥ x.created_at then h :: x :: xs else x :: insertDesc h xs

/-- Sort highlights by `created_at` descending (the `ORDER BY created_at
DESC` of the source's queries). -/
def sortByCreatedDesc : List Highlight → List Highlight
  | [] => []
  | x :: xs => insertDesc x (sortByCreatedDesc xs)

/-- Embedding of the `get_highlights` command (lib.rs lines 281 to 310):
`SELECT ... FROM highlights WHERE book_title = ?1 ORDER BY created_at
DESC`. -/
def get_highlights (st : AppState) (book_title : String) : List Highlight :=
  sortByCreatedDesc (st.highlights.filter (fun h => h.book_title == book_title))

/-- Embedding of the `add_highlight` command (lib.rs lines 242 to 279):
plain `INSERT` into `highlights`, then return the created row. -/
def add_highlight (st : AppState) (book_title cfi text color notes : String) :
    Except DbError Highlight × AppState :=
  let row : Highlight :=
    { id := st.next_highlight_id, book_title := book_title, cfi := cfi,
      text := text, color := color, notes := notes, created_at := st.clock }
  (Except.ok row,
   { st with highlights := st.highlights ++ [row],
             next_highlight_id := st.next_highlight_id + 1,
             clock := st.clock + 1 })

/-- Embedding of the `delete_highlight` command (lib.rs lines 391 to 397):
a single `DELETE FROM highlights WHERE id = ?1`. Nothing else runs: no
statement touches `highlight_collections`, and the declared `ON DELETE
CASCADE` is inert because foreign-key enforcement is never enabled on
the connection. -/
def delete_highlight (st : AppState) (id : Int) : Except DbError Unit × AppState :=
  (Except.ok (),
   { st with highlights := st.highlights.filter (fun h => h.id != id) })

-- ---------------------------------------------------------------------------
-- delete_book and wipe_all_data
-- ---------------------------------------------------------------------------

/-- The state of `delete_book` after `DELETE FROM highlights WHERE
book_title = ?1` (lib.rs line 330). -/
def delete_book_hl (st : AppState) (title : String) : AppState :=
  { st with highlights := st.highlights.filter (fun h => h.book_title != title) }

/-- The state of `delete_book` after both row deletions (lib.rs lines 330
to 336): highlights and the catalog row are gone, the file is still on
disk. -/
def delete_book_mid (st : AppState) (title : String) : AppState :=
  { delete_book_hl st title with
    books := st.books.filter (fun b => b.title != title) }

/-- Embedding of the `delete_book` command (lib.rs lines 312 to 346):
look up the filename (`QueryReturnedNoRows` when the title is unknown),
delete the highlights rows, delete the catalog row, then remove the file
if it exists. -/
def delete_book (st : AppState) (title : String) : Except DbError Unit × AppState :=
  match findBook st title with
  | none => (Except.error DbError.notFound, st)
  | some b => (Except.ok (), removeFile (delete_book_mid st title) b.filename)

/-- The successive states `delete_book` passes through on its success path:
initial, after the highlights delete, after the books delete, after the
file removal. On the not-found path the state never changes. -/
def delete_book_states (st : AppState) (title : String) : List AppState :=
  match findBook st title with
  | none => [st]
  | some b =>
    [st, delete_book_hl st title, delete_book_mid st title,
     removeFile (delete_book_mid st title) b.filename]

/-- Embedding of the `wipe_all_data` command (lib.rs lines 471 to 493):
`DELETE FROM highlights; DELETE FROM books; DELETE FROM bookmarks;
VACUUM;`, then — only `if books_dir.exists()` — `remove_dir_all`
followed by `create_dir_all`. Collections and `highlight_collections`
are not touched. -/
def wipe_all_data (st : AppState) : AppState :=
  let st1 := { st with highlights := [], books := [], bookmarks := [] }
  match st1.books_dir with
  | none => st1
  | some _ => { st1 with books_dir := some [] }

-- ---------------------------------------------------------------------------
-- Collection store
-- ---------------------------------------------------------------------------

/-- Embedding of the `create_collection` command (lib.rs lines 499 to 527):
a plain `INSERT INTO collections (name, emoji)` — no `OR IGNORE` — so a
duplicate `name` hits the `UNIQUE` constraint and the error is returned
to the caller; otherwise the created row is selected back and returned. -/
def create_collection (st : AppState) (name emoji : String) :
    Except DbError Collection × AppState :=
  if st.collections.any (fun c => c.name == name) then
    (Except.error DbError.constraintViolation, st)
  else
    let row : Collection :=
      { id := st.next_collection_id, name := name, emoji := emoji,
        created_at := st.clock }
    (Except.ok row,
     { st with collections := st.collections ++ [row],
               next_collection_id := st.next_collection_id + 1,
               clock := st.clock + 1 })

/-- Embedding of the `add_highlight_to_collection` command (lib.rs lines
565 to 578): `INSERT OR IGNORE INTO highlight_collections`. With
foreign-key enforcement off (never enabled on the connection), the
declared foreign keys are not checked: the pair is inserted whether or
not the referenced highlight and collection rows exist. -/
def add_highlight_to_collection (st : AppState) (highlight_id collection_id : Int) :
    Except DbError Unit × AppState :=
  if st.highlight_collections.contains (highlight_id, collection_id) then
    (Except.ok (), st)
  else
    (Except.ok (),
     { st with
       highlight_collections :=
         st.highlight_collections ++ [(highlight_id, collection_id)] })

-- ---------------------------------------------------------------------------
-- Shared helper lemmas
-- ---------------------------------------------------------------------------

/-- Mapping a function that fixes every element of a list is the identity. -/
theorem map_eq_self_of_fixed {α : Type} {f : α → α} {l : List α}
    (h : ∀ x ∈ l, f x = x) : l.map f = l := by
  induction l with
  | nil => rfl
  | cons a as ih =>
    simp only [List.map_cons, h a (List.mem_cons_self a as),
      ih (fun x hx => h x (List.mem_cons_of_mem a hx)), List.cons.injEq, and_self]

-- ---------------------------------------------------------------------------
-- C1: delete_highlight and the association rows
-- ---------------------------------------------------------------------------

/-- A state holding one highlight (id 1), one collection (id 1), and the
association row linking them. -/
def stateC1 : AppState :=
  { emptyState with
    highlights := [{ id := 1, book_title := "T", cfi := "c", text := "x",
                     color := "#facc15", notes := "", created_at := 0 }],
    collections := [{ id := 1, name := "Fav", emoji := "⭐", created_at := 0 }],
    highlight_collections := [(1, 1)] }

/-- C1: evaluating `delete_highlight` at the failing input. The command
deletes the highlight row with id 1 and succeeds, yet the association row
`(1, 1)` of `highlight_collections` survives: the source runs only
`DELETE FROM highlights WHERE id = ?1`, and the `ON DELETE CASCADE`
declared in `init_db` never fires because foreign-key enforcement is
never enabled on the connection. The claim that no association row
referencing the deleted highlight remains is therefore violated by the
code (while `delete_collection` performs the analogous cascade manually,
`delete_highlight` does not). -/
theorem C1_delete_highlight_leaves_association :
    (delete_highlight stateC1 1).1 = Except.ok () ∧
    (delete_highlight stateC1 1).2.highlights = [] ∧
    (delete_highlight stateC1 1).2.highlight_collections = [(1, 1)] := by
  decide

-- ---------------------------------------------------------------------------
-- C3: init_db error handling
-- ---------------------------------------------------------------------------

/-- C3 (counterexample): a run in which the first additive migration fails
with an error that is NOT "duplicate column" — here "database is locked"
— and `init_db` nevertheless returns normally, exactly as it does when
every migration succeeds: the `let _ = conn.execute(...)` pattern
discards every migration outcome, it does not distinguish
duplicate-column errors from others. The spec-faithful Schema Manager
`init_db_spec` aborts on the same input. -/
theorem C3_counterexample :
    init_db none
      [some (SqlError.other "database is locked"), none, none, none, none]
      none = some () ∧
    init_db_spec none
      [some (SqlError.other "database is locked"), none, none, none, none]
      none = none := by
  decide

/-- C3 (amended): failure of either `execute_batch` creating tables is
fatal (`init_db` panics), while the outcome of every additive column
migration — duplicate-column or any other error alike — is discarded
unconditionally, so `init_db` returns normally whatever the migrations
report. -/
theorem C3_init_db_error_handling (migrations : List (Option SqlError))
    (e e' : SqlError) (c : Option SqlError) :
    init_db none migrations none = some () ∧
    init_db (some e) migrations c = none ∧
    init_db none migrations (some e') = none :=
  ⟨rfl, rfl, rfl⟩

-- ---------------------------------------------------------------------------
-- C6: wipe_all_data
-- ---------------------------------------------------------------------------

/-- A state with one catalog row but in which the managed `books`
directory has never been created on disk (as after a fresh start where
`add_book` was never called). -/
def stateC6 : AppState :=
  { emptyState with
    books := [{ id := 1, title := "T", filename := "f.epub", last_cfi := "",
                cover := none, locations_data := none, last_percentage := 0,
                created_at := 0 }],
    books_dir := none }

/-- C6 (counterexample): from a state in which the managed content
directory does not exist, `wipe_all_data` succeeds and empties the
tables, but the directory is NOT recreated — the source only removes and
recreates it inside `if books_dir.exists()`, so afterwards the directory
still does not exist, contradicting the claim that after `wipeAll()` in
any state the directory "still exists". -/
theorem C6_counterexample :
    (wipe_all_data stateC6).books = [] ∧
    (wipe_all_data stateC6).books_dir = none := by
  decide

/-- C6 (amended): `wipe_all_data` always deletes every row of
`highlights`, `books` and `bookmarks`, touches neither `collections` nor
`highlight_collections`, and handles the content directory
conditionally: if it existed beforehand it is removed and recreated
empty (zero files), and if it did not exist it is left absent. -/
theorem C6_wipe_all_spec (st : AppState) :
    (wipe_all_data st).highlights = [] ∧
    (wipe_all_data st).books = [] ∧
    (wipe_all_data st).bookmarks = [] ∧
    (wipe_all_data st).collections = st.collections ∧
    (wipe_all_data st).highlight_collections = st.highlight_collections ∧
    (wipe_all_data st).books_dir =
      (match st.books_dir with | none => none | some _ => some []) := by
  unfold wipe_all_data
  cases h : st.books_dir <;> simp [h]

-- ---------------------------------------------------------------------------
-- C7: create_collection uniqueness
-- ---------------------------------------------------------------------------

/-- C7: when the `collections` table holds exactly one row with the given
name, `create_collection` with that name fails with the uniqueness
constraint violation (surfaced to the caller, not ignored) and the table
afterwards still holds exactly one row with that name. -/
theorem C7_create_collection_duplicate (st : AppState) (name emoji : String)
    (h : (st.collections.filter (fun c => c.name == name)).length = 1) :
    (create_collection st name emoji).1 = Except.error DbError.constraintViolation ∧
    ((create_collection st name emoji).2.collections.filter
        (fun c => c.name == name)).length = 1 := by
  have hne : st.collections.filter (fun c => c.name == name) ≠ [] := by
    intro hnil
    rw [hnil] at h
    exact absurd h (by decide)
  obtain ⟨x, hx⟩ := List.exists_mem_of_ne_nil _ hne
  have hmem := List.mem_filter.mp hx
  have hany : st.collections.any (fun c => c.name == name) = true :=
    List.any_eq_true.mpr ⟨x, hmem.1, hmem.2⟩
  unfold create_collection
  rw [if_pos hany]
  exact ⟨rfl, h⟩

/-- A state reached by creating the collection "Favorites" once. -/
def stateC7 : AppState := (create_collection emptyState "Favorites" "⭐").2

/-- C7 at a concrete input: after `createCollection("Favorites", "⭐")`, a
second `createCollection("Favorites", "🔥")` fails with the constraint
violation and the table still has exactly one "Favorites" row. -/
theorem C7_witness :
    (create_collection stateC7 "Favorites" "🔥").1 =
      Except.error DbError.constraintViolation ∧
    ((create_collection stateC7 "Favorites" "🔥").2.collections.filter
        (fun c => c.name == "Favorites")).length = 1 :=
  C7_create_collection_duplicate stateC7 "Favorites" "🔥" (by decide)

-- ---------------------------------------------------------------------------
-- C8: update_book_progress on an unknown title
-- ---------------------------------------------------------------------------

/-- C8: when no catalog row has the given title, `update_book_progress`
returns success and the state — every table, every row — is exactly the
state before the call: the `UPDATE ... WHERE title = ?3` affects zero
rows, creates none, and reports no error. -/
theorem C8_update_progress_unknown_title (st : AppState) (title cfi : String)
    (pct : Int) (h : ∀ b ∈ st.books, b.title ≠ title) :
    (update_book_progress st title cfi pct).1 = Except.ok () ∧
    (update_book_progress st title cfi pct).2 = st := by
  refine ⟨rfl, ?_⟩
  show { st with books := st.books.map _ } = st
  rw [map_eq_self_of_fixed]
  intro b hb
  rw [if_neg]
  simp only [beq_iff_eq]
  exact h b hb

/-- A one-book catalog used to exercise the unknown-title update. -/
def stateC8 : AppState :=
  { emptyState with
    books := [{ id := 1, title := "A", filename := "a.epub", last_cfi := "",
                cover := none, locations_data := none, last_percentage := 0,
                created_at := 0 }] }

/-- C8 at a concrete input: `updateProgress("nonexistent", "cfi", 5)`
against a catalog holding only the book "A" succeeds and changes
nothing. -/
theorem C8_witness :
    (update_book_progress stateC8 "nonexistent" "cfi" 5).1 = Except.ok () ∧
    (update_book_progress stateC8 "nonexistent" "cfi" 5).2 = stateC8 :=
  C8_update_progress_unknown_title stateC8 "nonexistent" "cfi" 5 (by decide)

-- ---------------------------------------------------------------------------
-- C9: dangling association rows
-- ---------------------------------------------------------------------------

/-- C9: even when no highlight with id `hid` and no collection with id
`cid` exist, `add_highlight_to_collection` returns success and the pair
is present in `highlight_collections` afterwards — the foreign keys
declared on the table are never enforced at runtime (foreign-key
enforcement is never enabled on the connection), so a dangling
association row is creatable through the public interface. -/
theorem C9_link_dangling (st : AppState) (hid cid : Int)
    (h1 : ∀ hl ∈ st.highlights, hl.id ≠ hid)
    (h2 : ∀ c ∈ st.collections, c.id ≠ cid) :
    (add_highlight_to_collection st hid cid).1 = Except.ok () ∧
    (hid, cid) ∈ (add_highlight_to_collection st hid cid).2.highlight_collections := by
  unfold add_highlight_to_collection
  by_cases hc : st.highlight_collections.contains (hid, cid) = true
  · rw [if_pos hc]
    exact ⟨rfl, by simpa using hc⟩
  · rw [if_neg hc]
    exact ⟨rfl, by simp⟩

/-- C9 at a concrete input: in the empty state — no highlight 7, no
collection 9 — linking 7 to 9 succeeds and leaves the dangling row. -/
theorem C9_witness :
    (add_highlight_to_collection emptyState 7 9).1 = Except.ok () ∧
    (7, 9) ∈ (add_highlight_to_collection emptyState 7 9).2.highlight_collections :=
  C9_link_dangling emptyState 7 9 (by decide) (by decide)

-- ---------------------------------------------------------------------------
-- Helper lemmas about the catalog and the content store
-- ---------------------------------------------------------------------------

/-- Finding in an append whose first part has no match searches the second. -/
theorem find?_append_eq_right {α : Type} {p : α → Bool} {l1 l2 : List α}
    (h : ∀ x ∈ l1, p x = false) : (l1 ++ l2).find? p = l2.find? p := by
  rw [List.find?_append, List.find?_eq_none.mpr (fun x hx => by simp [h x hx])]
  rfl

/-- With no row of the given title present, `INSERT OR IGNORE` appends a
fresh row built from the schema defaults. -/
theorem insertBookOrIgnore_new (st : AppState) (title fn_ : String)
    (cover : Option String)
    (h : st.books.any (fun b => b.title == title) = false) :
    insertBookOrIgnore st title fn_ cover =
      { st with
        books := st.books ++
          [{ id := st.next_book_id, title := title, filename := fn_,
             last_cfi := "", cover := cover, locations_data := none,
             last_percentage := 0, created_at := st.clock }],
        next_book_id := st.next_book_id + 1,
        clock := st.clock + 1 } := by
  unfold insertBookOrIgnore
  rw [if_neg (by simp [h])]

/-- With a row of the given title present, `INSERT OR IGNORE` is skipped
silently and the state is untouched. -/
theorem insertBookOrIgnore_existing (st : AppState) (title fn_ : String)
    (cover : Option String)
    (h : st.books.any (fun b => b.title == title) = true) :
    insertBookOrIgnore st title fn_ cover = st := by
  unfold insertBookOrIgnore
  rw [if_pos h]

/-- Reading back a freshly written file yields the written bytes. -/
theorem readFile_writeFile (st : AppState) (fn_ : String) (data : List Nat) :
    readFile (writeFile st fn_ data) fn_ = some data := by
  unfold readFile writeFile
  simp only [Option.getD_some]
  rw [find?_append_eq_right (fun x hx => ?_), List.find?_cons_of_pos _ (by simp)]
  · rfl
  · have := (List.mem_filter.mp hx).2
    simpa [bne] using this

/-- Reading a file after removing it fails. -/
theorem readFile_removeFile (st : AppState) (fn_ : String) :
    readFile (removeFile st fn_) fn_ = none := by
  unfold readFile removeFile
  cases hd : st.books_dir with
  | none => simp [hd]
  | some fs =>
    simp only [Option.getD_some]
    rw [List.find?_eq_none.mpr (fun x hx => ?_)]
    · rfl
    · have := (List.mem_filter.mp hx).2
      simpa [bne] using this

-- ---------------------------------------------------------------------------
-- C4: add_book is idempotent per title
-- ---------------------------------------------------------------------------

/-- C4: when no row with `title` exists yet, the first `add_book` returns
the freshly inserted row; a second `add_book` with the same title — even
with a different filename, cover and content — returns that very same
row, leaves the `books` table exactly as the first call left it (the
existing row is not updated, no duplicate is created), and only the
content file on disk is (over)written with the new bytes. -/
theorem C4_add_book_idempotent (st : AppState) (title f1 f2 : String)
    (c1 c2 : Option String) (d1 d2 : List Nat)
    (h : bookTitlePresentB st title = false) :
    (add_book (add_book st title f1 c1 d1).2 title f2 c2 d2).1 =
      (add_book st title f1 c1 d1).1 ∧
    (add_book st title f1 c1 d1).1 =
      Except.ok { id := st.next_book_id, title := title, filename := f1,
                  last_cfi := "", cover := c1, locations_data := none,
                  last_percentage := 0, created_at := st.clock } ∧
    (add_book (add_book st title f1 c1 d1).2 title f2 c2 d2).2.books =
      (add_book st title f1 c1 d1).2.books ∧
    readFile (add_book (add_book st title f1 c1 d1).2 title f2 c2 d2).2 f2 =
      some d2 := by
  have hany : st.books.any (fun b => b.title == title) = false := h
  have hall : ∀ b ∈ st.books, (b.title == title) = false := by
    intro b hb
    by_contra hcon
    have hb' : (b.title == title) = true := by
      revert hcon; cases b.title == title <;> simp
    have : st.books.any (fun b => b.title == title) = true :=
      List.any_eq_true.mpr ⟨b, hb, hb'⟩
    rw [this] at hany
    exact absurd hany (by decide)
  have e3 : insertBookOrIgnore (add_book_mid st f1 d1) title f1 c1 =
      { add_book_mid st f1 d1 with
        books := st.books ++
          [{ id := st.next_book_id, title := title, filename := f1,
             last_cfi := "", cover := c1, locations_data := none,
             last_percentage := 0, created_at := st.clock }],
        next_book_id := st.next_book_id + 1,
        clock := st.clock + 1 } :=
    insertBookOrIgnore_new _ _ _ _ hany
  have efind : findBook (insertBookOrIgnore (add_book_mid st f1 d1) title f1 c1)
      title =
      some { id := st.next_book_id, title := title, filename := f1,
             last_cfi := "", cover := c1, locations_data := none,
             last_percentage := 0, created_at := st.clock } := by
    rw [e3]
    unfold findBook
    simp only
    rw [find?_append_eq_right hall, List.find?_cons_of_pos _ (by simp)]
  have er1 : add_book st title f1 c1 d1 =
      (Except.ok { id := st.next_book_id, title := title, filename := f1,
                   last_cfi := "", cover := c1, locations_data := none,
                   last_percentage := 0, created_at := st.clock },
       insertBookOrIgnore (add_book_mid st f1 d1) title f1 c1) := by
    unfold add_book
    simp only [efind]
  rw [er1]
  have hany2 : (insertBookOrIgnore (add_book_mid st f1 d1) title f1 c1).books.any
      (fun b => b.title == title) = true := by
    rw [e3]
    simp only [List.any_append]
    simp
  have e3' : insertBookOrIgnore
      (add_book_mid (insertBookOrIgnore (add_book_mid st f1 d1) title f1 c1) f2 d2)
      title f2 c2 =
      add_book_mid (insertBookOrIgnore (add_book_mid st f1 d1) title f1 c1) f2 d2 :=
    insertBookOrIgnore_existing _ _ _ _ hany2
  have efind2 : findBook
      (add_book_mid (insertBookOrIgnore (add_book_mid st f1 d1) title f1 c1) f2 d2)
      title =
      some { id := st.next_book_id, title := title, filename := f1,
             last_cfi := "", cover := c1, locations_data := none,
             last_percentage := 0, created_at := st.clock } := by
    show findBook (insertBookOrIgnore (add_book_mid st f1 d1) title f1 c1) title = _
    exact efind
  have er2 : add_book (insertBookOrIgnore (add_book_mid st f1 d1) title f1 c1)
      title f2 c2 d2 =
      (Except.ok { id := st.next_book_id, title := title, filename := f1,
                   last_cfi := "", cover := c1, locations_data := none,
                   last_percentage := 0, created_at := st.clock },
       add_book_mid (insertBookOrIgnore (add_book_mid st f1 d1) title f1 c1) f2 d2)
      := by
    unfold add_book
    simp only [e3', efind2]
  rw [er2]
  refine ⟨rfl, rfl, rfl, ?_⟩
  exact readFile_writeFile _ _ _

/-- C4 at a concrete input: adding "T" with file "a.epub" then again with
file "b.epub" and a cover returns the same row twice, keeps one catalog
row with filename "a.epub" and no cover, and stores the new bytes under
"b.epub". -/
theorem C4_witness :
    (add_book (add_book emptyState "T" "a.epub" none [1]).2 "T" "b.epub"
        (some "cov") [2]).1 =
      (add_book emptyState "T" "a.epub" none [1]).1 ∧
    (add_book emptyState "T" "a.epub" none [1]).1 =
      Except.ok { id := 1, title := "T", filename := "a.epub", last_cfi := "",
                  cover := none, locations_data := none, last_percentage := 0,
                  created_at := 0 } ∧
    (add_book (add_book emptyState "T" "a.epub" none [1]).2 "T" "b.epub"
        (some "cov") [2]).2.books =
      (add_book emptyState "T" "a.epub" none [1]).2.books ∧
    readFile (add_book (add_book emptyState "T" "a.epub" none [1]).2 "T" "b.epub"
        (some "cov") [2]).2 "b.epub" = some [2] :=
  C4_add_book_idempotent emptyState "T" "a.epub" "b.epub" none (some "cov")
    [1] [2] (by decide)

-- ---------------------------------------------------------------------------
-- C5: delete_book
-- ---------------------------------------------------------------------------

/-- Removing a file from the store touches nothing but the directory. -/
theorem removeFile_highlights (st : AppState) (fn_ : String) :
    (removeFile st fn_).highlights = st.highlights := by
  unfold removeFile
  cases st.books_dir <;> rfl

/-- Removing a file from the store leaves the catalog untouched. -/
theorem removeFile_books (st : AppState) (fn_ : String) :
    (removeFile st fn_).books = st.books := by
  unfold removeFile
  cases st.books_dir <;> rfl

/-- C5: with an unknown title, `delete_book` fails with `notFound` and the
whole state is unchanged; with a known title it succeeds, the surviving
`highlights` rows are exactly those of other titles, the surviving
`books` rows are exactly those of other titles, `get_highlights` for the
title is afterwards empty, and `get_book_content` for the book's
filename afterwards fails with `notFound` (the file removal step itself
tolerates the file being absent: no hypothesis about the file is
needed). -/
theorem C5_delete_book_spec (st : AppState) (title : String) :
    (findBook st title = none →
      delete_book st title = (Except.error DbError.notFound, st)) ∧
    (∀ b, findBook st title = some b →
      (delete_book st title).1 = Except.ok () ∧
      (delete_book st title).2.highlights =
        st.highlights.filter (fun hl => hl.book_title != title) ∧
      (delete_book st title).2.books =
        st.books.filter (fun b2 => b2.title != title) ∧
      get_highlights (delete_book st title).2 title = [] ∧
      get_book_content (delete_book st title).2 b.filename =
        Except.error DbError.notFound) := by
  constructor
  · intro hnone
    unfold delete_book
    rw [hnone]
  · intro b hb
    have hdel : delete_book st title =
        (Except.ok (), removeFile (delete_book_mid st title) b.filename) := by
      unfold delete_book
      rw [hb]
    rw [hdel]
    have hhl : (removeFile (delete_book_mid st title) b.filename).highlights =
        st.highlights.filter (fun hl => hl.book_title != title) := by
      rw [removeFile_highlights]
      rfl
    refine ⟨rfl, hhl, ?_, ?_, ?_⟩
    · rw [removeFile_books]
      rfl
    · unfold get_highlights
      rw [hhl, List.filter_filter]
      have hfalse : ∀ hl : Highlight,
          ((hl.book_title == title) && (hl.book_title != title)) = false := by
        intro hl
        cases hc : hl.book_title == title <;> simp [bne, hc]
      simp only [hfalse, List.filter_false]
      rfl
    · unfold get_book_content
      rw [readFile_removeFile]

/-- A library with the book "T" (file "f.epub" present on disk), three
highlights on "T", and one highlight on another book "U". -/
def stateC5 : AppState :=
  { emptyState with
    books := [{ id := 1, title := "T", filename := "f.epub", last_cfi := "",
                cover := none, locations_data := none, last_percentage := 0,
                created_at := 0 }],
    highlights :=
      [{ id := 1, book_title := "T", cfi := "c1", text := "a",
         color := "#facc15", notes := "", created_at := 1 },
       { id := 2, book_title := "T", cfi := "c2", text := "b",
         color := "#facc15", notes := "", created_at := 2 },
       { id := 3, book_title := "T", cfi := "c3", text := "c",
         color := "#facc15", notes := "", created_at := 3 },
       { id := 4, book_title := "U", cfi := "c4", text := "d",
         color := "#facc15", notes := "", created_at := 4 }],
    books_dir := some [("f.epub", [1, 2, 3])] }

/-- The catalog row of "T" in `stateC5`. -/
def bookC5 : BookMetadata :=
  { id := 1, title := "T", filename := "f.epub", last_cfi := "", cover := none,
    locations_data := none, last_percentage := 0, created_at := 0 }

/-- C5 at concrete inputs: deleting the unknown title "missing" fails with
`notFound` and changes nothing, and deleting "T" succeeds, empties
`get_highlights` for "T", and makes `get_book_content "f.epub"` fail
with `notFound`. -/
theorem C5_witness :
    delete_book stateC5 "missing" = (Except.error DbError.notFound, stateC5) ∧
    (delete_book stateC5 "T").1 = Except.ok () ∧
    get_highlights (delete_book stateC5 "T").2 "T" = [] ∧
    get_book_content (delete_book stateC5 "T").2 "f.epub" =
      Except.error DbError.notFound := by
  refine ⟨(C5_delete_book_spec stateC5 "missing").1 (by decide), ?_, ?_, ?_⟩
  · exact ((C5_delete_book_spec stateC5 "T").2 bookC5 (by decide)).1
  · exact ((C5_delete_book_spec stateC5 "T").2 bookC5 (by decide)).2.2.2.1
  · exact ((C5_delete_book_spec stateC5 "T").2 bookC5 (by decide)).2.2.2.2

-- ---------------------------------------------------------------------------
-- C10: frame of update_book_progress
-- ---------------------------------------------------------------------------

/-- Zipping a list with its image pairs every element with its image. -/
theorem zip_map_self {α : Type} (f : α → α) (l : List α) :
    l.zip (l.map f) = l.map (fun a => (a, f a)) := by
  induction l with
  | nil => rfl
  | cons a as ih => simp [ih]

/-- C10: for a title present in the catalog, `update_book_progress`
succeeds and modifies only `last_cfi` and `last_percentage` of the rows
with that title: pairing each old `books` row with its new counterpart,
`id`, `title`, `filename`, `cover`, `locations_data` and `created_at`
are preserved, rows of other titles are completely unchanged, and every
other table, the content directory, and the counters are untouched. -/
theorem C10_update_progress_frame (st : AppState) (title cfi : String)
    (pct : Int) (h : ∃ b ∈ st.books, b.title = title) :
    (update_book_progress st title cfi pct).1 = Except.ok () ∧
    (update_book_progress st title cfi pct).2.highlights = st.highlights ∧
    (update_book_progress st title cfi pct).2.bookmarks = st.bookmarks ∧
    (update_book_progress st title cfi pct).2.collections = st.collections ∧
    (update_book_progress st title cfi pct).2.highlight_collections =
      st.highlight_collections ∧
    (update_book_progress st title cfi pct).2.books_dir = st.books_dir ∧
    (update_book_progress st title cfi pct).2.next_book_id = st.next_book_id ∧
    (update_book_progress st title cfi pct).2.clock = st.clock ∧
    (update_book_progress st title cfi pct).2.books.length = st.books.length ∧
    (∀ q ∈ st.books.zip (update_book_progress st title cfi pct).2.books,
      q.2.id = q.1.id ∧ q.2.title = q.1.title ∧ q.2.filename = q.1.filename ∧
      q.2.cover = q.1.cover ∧ q.2.locations_data = q.1.locations_data ∧
      q.2.created_at = q.1.created_at ∧
      (q.1.title ≠ title → q.2 = q.1) ∧
      (q.1.title = title → q.2.last_cfi = cfi ∧ q.2.last_percentage = pct)) := by
  clear h
  refine ⟨rfl, rfl, rfl, rfl, rfl, rfl, rfl, rfl, ?_, ?_⟩
  · show (st.books.map _).length = _
    rw [List.length_map]
  · intro q hq
    have hq' : q ∈ st.books.zip (st.books.map (fun b =>
        if b.title == title then
          { b with last_cfi := cfi, last_percentage := pct }
        else b)) := hq
    rw [zip_map_self] at hq'
    obtain ⟨a, ha, rfl⟩ := List.mem_map.mp hq'
    by_cases hcase : a.title = title
    · have hbeq : (a.title == title) = true := by simp [hcase]
      simp [hbeq, hcase]
    · have hbeq : (a.title == title) = false := by simp [hcase]
      simp [hbeq, hcase]

/-- A two-book catalog for exercising the frame property. -/
def stateC10 : AppState :=
  { emptyState with
    books := [{ id := 1, title := "T", filename := "f.epub", last_cfi := "old",
                cover := some "cv", locations_data := some "loc",
                last_percentage := 3, created_at := 0 },
              { id := 2, title := "U", filename := "g.epub", last_cfi := "u",
                cover := none, locations_data := none, last_percentage := 7,
                created_at := 1 }],
    highlights := [{ id := 1, book_title := "T", cfi := "c", text := "x",
                     color := "#facc15", notes := "", created_at := 0 }] }

/-- C10 at a concrete input: updating progress of "T" in a two-book
catalog touches nothing beyond the `last_cfi`/`last_percentage` of the
"T" row. -/
theorem C10_witness :
    (update_book_progress stateC10 "T" "new" 9).1 = Except.ok () ∧
    (update_book_progress stateC10 "T" "new" 9).2.highlights =
      stateC10.highlights ∧
    (update_book_progress stateC10 "T" "new" 9).2.bookmarks =
      stateC10.bookmarks ∧
    (update_book_progress stateC10 "T" "new" 9).2.collections =
      stateC10.collections ∧
    (update_book_progress stateC10 "T" "new" 9).2.highlight_collections =
      stateC10.highlight_collections ∧
    (update_book_progress stateC10 "T" "new" 9).2.books_dir =
      stateC10.books_dir ∧
    (update_book_progress stateC10 "T" "new" 9).2.next_book_id =
      stateC10.next_book_id ∧
    (update_book_progress stateC10 "T" "new" 9).2.clock = stateC10.clock ∧
    (update_book_progress stateC10 "T" "new" 9).2.books.length =
      stateC10.books.length ∧
    (∀ q ∈ stateC10.books.zip (update_book_progress stateC10 "T" "new" 9).2.books,
      q.2.id = q.1.id ∧ q.2.title = q.1.title ∧ q.2.filename = q.1.filename ∧
      q.2.cover = q.1.cover ∧ q.2.locations_data = q.1.locations_data ∧
      q.2.created_at = q.1.created_at ∧
      (q.1.title ≠ "T" → q.2 = q.1) ∧
      (q.1.title = "T" → q.2.last_cfi = "new" ∧ q.2.last_percentage = 9)) :=
  C10_update_progress_frame stateC10 "T" "new" 9 (by decide)

-- ---------------------------------------------------------------------------
-- C2: ordering of file writes and row inserts
-- ---------------------------------------------------------------------------

/-- The post-state of `add_book` is the state after the `INSERT OR
IGNORE`, whichever way the final `SELECT` goes. -/
theorem add_book_snd (st : AppState) (title fn_ : String) (cover : Option String)
    (data : List Nat) :
    (add_book st title fn_ cover data).2 =
      insertBookOrIgnore (add_book_mid st fn_ data) title fn_ cover := by
  show (match findBook (insertBookOrIgnore (add_book_mid st fn_ data) title fn_ cover)
          title with
        | some b =>
          (Except.ok b, insertBookOrIgnore (add_book_mid st fn_ data) title fn_ cover)
        | none =>
          (Except.error DbError.notFound,
           insertBookOrIgnore (add_book_mid st fn_ data) title fn_ cover)).2 =
      insertBookOrIgnore (add_book_mid st fn_ data) title fn_ cover
  cases findBook (insertBookOrIgnore (add_book_mid st fn_ data) title fn_ cover)
    title <;> rfl

/-- C2 (counterexample): one concrete execution of `add_book` on the fresh
empty state. Its trace of states contains the mid state — after
`fs::write` (lib.rs line 144), before the `INSERT OR IGNORE` (line 147)
— and in that state the content file "b.epub" exists while no catalog
row carries filename "b.epub": the file is created BEFORE the row
insert, and a state with a content file whose catalog row is missing is
reachable, contradicting the claim. -/
theorem C2_counterexample :
    add_book_mid emptyState "b.epub" [1] ∈
      add_book_states emptyState "T" "b.epub" none [1] ∧
    hasOrphanFile (add_book_mid emptyState "b.epub" [1]) = true ∧
    hasOrphanFile emptyState = false := by
  decide

/-- C2 (amended): in every execution of `add_book` the content file is
written BEFORE the catalog row insert — in the traversed mid state the
file's bytes are readable while the title is still absent from the
catalog, and only the final state has the row — and in every successful
execution of `delete_book` the catalog rows are deleted BEFORE the file
removal — in the traversed mid state the title is gone from the catalog
while the file is untouched, and only the final state lacks the file. A
state in which a content file exists whose catalog row is missing is
therefore reachable inside both operations. -/
theorem C2_amended_file_row_order (st st2 : AppState) (title fn_ : String)
    (cover : Option String) (data : List Nat) (b : BookMetadata)
    (h1 : bookTitlePresentB st title = false)
    (h2 : findBook st2 title = some b) :
    (readFile (add_book_mid st fn_ data) fn_ = some data ∧
     bookTitlePresentB (add_book_mid st fn_ data) title = false ∧
     add_book_mid st fn_ data ∈ add_book_states st title fn_ cover data ∧
     bookTitlePresentB (add_book st title fn_ cover data).2 title = true) ∧
    (bookTitlePresentB (delete_book_mid st2 title) title = false ∧
     readFile (delete_book_mid st2 title) b.filename = readFile st2 b.filename ∧
     delete_book_mid st2 title ∈ delete_book_states st2 title ∧
     readFile (delete_book st2 title).2 b.filename = none) := by
  refine ⟨⟨readFile_writeFile _ _ _, h1, ?_, ?_⟩, ?_, rfl, ?_, ?_⟩
  · exact List.mem_cons_of_mem _ (List.mem_cons_of_mem _ (List.mem_cons_self _ _))
  · rw [add_book_snd,
      insertBookOrIgnore_new (add_book_mid st fn_ data) title fn_ cover h1]
    unfold bookTitlePresentB
    simp
  · have hmidrows : ∀ x ∈ st2.books.filter (fun b2 => b2.title != title),
        (x.title == title) = false := by
      intro x hx
      have hx2 := (List.mem_filter.mp hx).2
      cases hc : x.title == title
      · rfl
      · rw [bne, hc] at hx2
        exact absurd hx2 (by decide)
    by_contra hcon
    have htrue : bookTitlePresentB (delete_book_mid st2 title) title = true := by
      revert hcon
      cases bookTitlePresentB (delete_book_mid st2 title) title <;> simp
    obtain ⟨x, hxmem, hxp⟩ := List.any_eq_true.mp htrue
    rw [hmidrows x hxmem] at hxp
    exact absurd hxp (by decide)
  · have hst : delete_book_states st2 title =
        [st2, delete_book_hl st2 title, delete_book_mid st2 title,
         removeFile (delete_book_mid st2 title) b.filename] := by
      unfold delete_book_states
      rw [h2]
    rw [hst]
    exact List.mem_cons_of_mem _ (List.mem_cons_of_mem _ (List.mem_cons_self _ _))
  · have hfin : (delete_book st2 title).2 =
        removeFile (delete_book_mid st2 title) b.filename := by
      unfold delete_book
      rw [h2]
    rw [hfin]
    exact readFile_removeFile _ _

/-- A state holding the book "T" with its content file "f" on disk. -/
def stateC2 : AppState :=
  { emptyState with
    books := [{ id := 1, title := "T", filename := "f", last_cfi := "",
                cover := none, locations_data := none, last_percentage := 0,
                created_at := 0 }],
    books_dir := some [("f", [9])] }

/-- The catalog row of "T" in `stateC2`. -/
def bookC2 : BookMetadata :=
  { id := 1, title := "T", filename := "f", last_cfi := "", cover := none,
    locations_data := none, last_percentage := 0, created_at := 0 }

/-- C2 (amended) at concrete inputs: adding "T" to the empty state passes
through the file-present-row-missing mid state, and deleting "T" from
`stateC2` passes through the row-missing-file-present mid state. -/
theorem C2_witness :
    (readFile (add_book_mid emptyState "g.epub" [5]) "g.epub" = some [5] ∧
     bookTitlePresentB (add_book_mid emptyState "g.epub" [5]) "T" = false ∧
     add_book_mid emptyState "g.epub" [5] ∈
       add_book_states emptyState "T" "g.epub" none [5] ∧
     bookTitlePresentB (add_book emptyState "T" "g.epub" none [5]).2 "T" = true) ∧
    (bookTitlePresentB (delete_book_mid stateC2 "T") "T" = false ∧
     readFile (delete_book_mid stateC2 "T") "f" = readFile stateC2 "f" ∧
     delete_book_mid stateC2 "T" ∈ delete_book_states stateC2 "T" ∧
     readFile (delete_book stateC2 "T").2 "f" = none) :=
  C2_amended_file_row_order emptyState stateC2 "T" "g.epub" none [5] bookC2
    (by decide) (by decide)
